import Mathlib

/-!
Verification of the scoring / shock / advisor core of the
"Smart Budget, Risk & Resilience Tracker" (src/app.py).

Monetary amounts and ratios are modelled as rationals (`ℚ`); Python's
`round` (banker's rounding, half to even) is modelled by `pyRound`.
Each definition below embeds the correspondingly named Python function
or dashboard variable from src/app.py.
-/

namespace BudgetApp

/-- Python's built-in `round` on a rational: nearest integer, ties to even. -/
def pyRound (q : ℚ) : ℤ :=
  if q - ⌊q⌋ < 1/2 then ⌊q⌋
  else if 1/2 < q - ⌊q⌋ then ⌊q⌋ + 1
  else if 2 ∣ ⌊q⌋ then ⌊q⌋ else ⌊q⌋ + 1

theorem pyRound_intCast (m : ℤ) : pyRound (m : ℚ) = m := by
  unfold pyRound
  rw [Int.floor_intCast]
  norm_num

theorem pyRound_eq_intCast {q : ℚ} {m : ℤ} (h : q = (m : ℚ)) : pyRound q = m := by
  rw [h, pyRound_intCast]

theorem floor_le_pyRound (q : ℚ) : ⌊q⌋ ≤ pyRound q := by
  unfold pyRound
  split_ifs <;> omega

theorem le_pyRound {a : ℤ} {q : ℚ} (h : (a : ℚ) ≤ q) : a ≤ pyRound q :=
  le_trans (Int.le_floor.mpr h) (floor_le_pyRound q)

theorem pyRound_le {b : ℤ} {q : ℚ} (h : q ≤ (b : ℚ)) : pyRound q ≤ b := by
  have hfl : ⌊q⌋ ≤ b := by
    have := Int.floor_le_floor h
    rwa [Int.floor_intCast] at this
  unfold pyRound
  split_ifs with h1 h2 h3
  · exact hfl
  · have h1' : (1:ℚ)/2 ≤ q - ⌊q⌋ := not_lt.mp h1
    have hq : (⌊q⌋ : ℚ) < (b : ℚ) := by
      have : (⌊q⌋ : ℚ) < q := by linarith
      exact lt_of_lt_of_le this h
    have : ⌊q⌋ < b := by exact_mod_cast hq
    omega
  · exact hfl
  · have h1' : (1:ℚ)/2 ≤ q - ⌊q⌋ := not_lt.mp h1
    have hq : (⌊q⌋ : ℚ) < (b : ℚ) := by
      have : (⌊q⌋ : ℚ) < q := by linarith
      exact lt_of_lt_of_le this h
    have : ⌊q⌋ < b := by exact_mod_cast hq
    omega

/-- src/app.py `calculate_financial_health_score` (lines 20-34). -/
def calculate_financial_health_score (savings_rate expense_ratio needs_pct wants_pct : ℚ) : ℤ :=
  pyRound (min (savings_rate / 20 * 40) 40
    + (if expense_ratio ≤ 70 then 30 else if expense_ratio ≤ 85 then 15 else 5)
    + (if needs_pct ≤ 30 then 10 else 0)
    + (if wants_pct ≤ 30 then 10 else 0)
    + (if savings_rate ≥ 20 then 10 else 0))

/-- src/app.py line 39: `coverage = fixed_pay / needs if needs else 1`. -/
def alignment_coverage (fixed_pay needs : ℚ) : ℚ :=
  if needs ≠ 0 then fixed_pay / needs else 1

/-- src/app.py line 40: points for the fixed-pay coverage band. -/
def coverage_points (coverage : ℚ) : ℚ :=
  if coverage ≥ 6/5 then 40 else if coverage ≥ 1 then 30 else if coverage ≥ 4/5 then 15 else 5

/-- src/app.py line 43: points for the variable-pay ratio band. -/
def var_ratio_points (var_ratio : ℚ) : ℚ :=
  if var_ratio ≤ 1/5 then 30 else if var_ratio ≤ 7/20 then 20 else if var_ratio ≤ 1/2 then 10 else 5

/-- src/app.py line 46: points for the savings/gross ratio band. -/
def sav_ratio_points (sav_ratio : ℚ) : ℚ :=
  if sav_ratio ≥ 1/4 then 30 else if sav_ratio ≥ 3/20 then 20 else if sav_ratio ≥ 1/10 then 10 else 5

/-- src/app.py `calculate_ctc_budget_alignment_score` (lines 37-47). -/
def calculate_ctc_budget_alignment_score (fixed_pay variable_pay needs savings gross : ℚ) : ℤ :=
  pyRound (coverage_points (alignment_coverage fixed_pay needs)
    + var_ratio_points (if gross ≠ 0 then variable_pay / gross else 1)
    + sav_ratio_points (if gross ≠ 0 then savings / gross else 0))

/-- src/app.py `calculate_stress_test_score` (lines 50-60). -/
def calculate_stress_test_score (total_expenses shocked_take_home normal_savings shocked_savings : ℚ) : ℤ :=
  pyRound ((if shocked_take_home ≥ total_expenses then (40:ℚ)
      else if shocked_take_home ≥ 9/10 * total_expenses then 25 else 10)
    + (if shocked_savings > 0 then (30:ℚ) else if shocked_savings = 0 then 15 else 0)
    + (if normal_savings > 0 then
        (if shocked_savings / normal_savings ≥ 3/4 then (30:ℚ)
         else if shocked_savings / normal_savings ≥ 1/2 then 20
         else if shocked_savings / normal_savings ≥ 1/4 then 10 else 5)
       else 5))

/-- src/app.py `get_resilience_grade` (lines 63-64). -/
def get_resilience_grade (score : ℚ) : String :=
  if score ≥ 80 then "A" else if score ≥ 65 then "B" else if score ≥ 50 then "C" else "D"

/-- Rank of a letter grade, for stating monotonicity (D < C < B < A). -/
def gradeRank : String → ℕ
  | "D" => 0
  | "C" => 1
  | "B" => 2
  | "A" => 3
  | _ => 0

/-- src/app.py lines 70-94: the `base` dict of `get_policy_recommendations_by_grade`;
`none` models the `KeyError` a grade outside A/B/C/D would raise. -/
def base_recommendations : String → Option (List String)
  | "A" => some
      ["Maintain your savings discipline and continue tracking expenses.",
       "Increase long-term investments (PF, NPS, mutual funds).",
       "Build a 6-month emergency fund."]
  | "B" => some
      ["Increase savings slightly to improve shock resilience.",
       "Reduce discretionary spending.",
       "Avoid using variable pay for fixed expenses."]
  | "C" => some
      ["Reduce lifestyle expenses immediately.",
       "Ensure fixed expenses are covered by fixed income.",
       "Avoid reliance on bonuses for regular spending."]
  | "D" => some
      ["Urgently reduce fixed commitments (rent, EMIs, subscriptions).",
       "Stop relying on variable pay for essentials.",
       "Begin emergency savings, even with small amounts."]
  | _ => none

/-- src/app.py `get_policy_recommendations_by_grade` (lines 67-104). -/
def get_policy_recommendations_by_grade
    (grade : String) (expense_ratio savings_rate variable_ratio fixed_coverage_ratio : ℚ) :
    Option (List String) :=
  match base_recommendations grade with
  | none => none
  | some base =>
    let recs := base
    let recs := if expense_ratio > 85 then
      recs ++ ["Expense-to-income ratio is critically high."] else recs
    let recs := if savings_rate < 10 then
      recs ++ ["Savings are very low. Target at least 10% initially."] else recs
    let recs := if variable_ratio > 7/20 then
      recs ++ ["High dependence on variable pay increases risk."] else recs
    let recs := if fixed_coverage_ratio < 1 then
      recs ++ ["Fixed income does not fully cover fixed needs."] else recs
    some recs

/-- The raw values the dashboard (src/app.py tab 1) reads: budget income, the
six expense categories, the seven salary-structure fields, the two shock flags. -/
structure Inputs where
  income : ℚ
  housing : ℚ
  food : ℚ
  transport : ℚ
  utilities : ℚ
  lifestyle : ℚ
  others : ℚ
  basic : ℚ
  hra : ℚ
  allowance : ℚ
  variable_pay : ℚ
  pf : ℚ
  tax : ℚ
  pt : ℚ
  bonus_shock : Bool
  tax_shock : Bool

/-- All dashboard amounts the UI can produce are non-negative
(`st.number_input(..., min_value=0)`). -/
def Inputs.nonneg (i : Inputs) : Prop :=
  0 ≤ i.income ∧ 0 ≤ i.housing ∧ 0 ≤ i.food ∧ 0 ≤ i.transport ∧ 0 ≤ i.utilities ∧
  0 ≤ i.lifestyle ∧ 0 ≤ i.others ∧ 0 ≤ i.basic ∧ 0 ≤ i.hra ∧ 0 ≤ i.allowance ∧
  0 ≤ i.variable_pay ∧ 0 ≤ i.pf ∧ 0 ≤ i.tax ∧ 0 ≤ i.pt

/-- src/app.py line 210: `total_expenses = df_exp["Amount"].sum()`. -/
def total_expenses (i : Inputs) : ℚ :=
  i.housing + i.food + i.transport + i.utilities + i.lifestyle + i.others

/-- src/app.py line 211: `savings = income - total_expenses`. -/
def savings (i : Inputs) : ℚ := i.income - total_expenses i

/-- src/app.py line 212: `savings_rate = savings / income * 100 if income else 0`. -/
def savings_rate (i : Inputs) : ℚ :=
  if i.income ≠ 0 then savings i / i.income * 100 else 0

/-- src/app.py line 213: `expense_ratio = total_expenses / income * 100 if income else 0`. -/
def expense_ratio (i : Inputs) : ℚ :=
  if i.income ≠ 0 then total_expenses i / i.income * 100 else 0

/-- src/app.py lines 215-217: needs = Housing + Food + Utilities. -/
def needs (i : Inputs) : ℚ := i.housing + i.food + i.utilities

/-- src/app.py line 218: wants = Lifestyle & Entertainment. -/
def wants (i : Inputs) : ℚ := i.lifestyle

/-- src/app.py line 220: `needs_pct = needs / income * 100 if income else 0`. -/
def needs_pct (i : Inputs) : ℚ :=
  if i.income ≠ 0 then needs i / i.income * 100 else 0

/-- src/app.py line 221: `wants_pct = wants / income * 100 if income else 0`. -/
def wants_pct (i : Inputs) : ℚ :=
  if i.income ≠ 0 then wants i / i.income * 100 else 0

/-- src/app.py line 239: `fixed_pay = basic + hra + allowance`. -/
def fixed_pay (i : Inputs) : ℚ := i.basic + i.hra + i.allowance

/-- src/app.py line 240: `gross = fixed_pay + variable`. -/
def gross (i : Inputs) : ℚ := fixed_pay i + i.variable_pay

/-- src/app.py line 241: `deductions = pf + tax + pt`. -/
def deductions (i : Inputs) : ℚ := i.pf + i.tax + i.pt

/-- src/app.py line 274: `shocked_variable = 0 if bonus_shock else variable`. -/
def shocked_variable (i : Inputs) : ℚ := if i.bonus_shock then 0 else i.variable_pay

/-- src/app.py line 275: `shocked_tax = tax * 1.2 if tax_shock else tax`. -/
def shocked_tax (i : Inputs) : ℚ := if i.tax_shock then i.tax * (12/10) else i.tax

/-- src/app.py line 276: `shocked_take_home = (fixed_pay + shocked_variable) - (pf + shocked_tax + pt)`. -/
def shocked_take_home (i : Inputs) : ℚ :=
  (fixed_pay i + shocked_variable i) - (i.pf + shocked_tax i + i.pt)

/-- src/app.py line 277: `shocked_savings = shocked_take_home - total_expenses`. -/
def shocked_savings (i : Inputs) : ℚ := shocked_take_home i - total_expenses i

/-- src/app.py lines 280-282: the alignment-score call on dashboard values. -/
def alignment_score (i : Inputs) : ℤ :=
  calculate_ctc_budget_alignment_score (fixed_pay i) i.variable_pay (needs i) (savings i) (gross i)

/-- src/app.py lines 283-285: the stress-score call on dashboard values. -/
def stress_score (i : Inputs) : ℤ :=
  calculate_stress_test_score (total_expenses i) (shocked_take_home i) (savings i) (shocked_savings i)

/-- src/app.py line 286: `resilience_grade = get_resilience_grade(stress_score)`. -/
def resilience_grade (i : Inputs) : String := get_resilience_grade ((stress_score i : ℤ) : ℚ)

/-- src/app.py lines 287-289: the budget-health-score call on dashboard values. -/
def budget_score (i : Inputs) : ℤ :=
  calculate_financial_health_score (savings_rate i) (expense_ratio i) (needs_pct i) (wants_pct i)

/-- src/app.py line 292: `variable_ratio = variable / gross if gross else 1`. -/
def variable_ratio (i : Inputs) : ℚ :=
  if gross i ≠ 0 then i.variable_pay / gross i else 1

/-- src/app.py line 293: `fixed_coverage_ratio = fixed_pay / needs if needs else 0`
(the advisor-path coverage, fallback 0, unlike `alignment_coverage`). -/
def fixed_coverage_ratio (i : Inputs) : ℚ :=
  if needs i ≠ 0 then fixed_pay i / needs i else 0

/-- src/app.py lines 295-298: the recommendation call on dashboard values. -/
def recommendations (i : Inputs) : Option (List String) :=
  get_policy_recommendations_by_grade (resilience_grade i) (expense_ratio i)
    (savings_rate i) (variable_ratio i) (fixed_coverage_ratio i)

/-- The spec's §4.3 detailed shock model, stated from the spec's words: zero out
variable pay if the bonus shock is active; scale income tax by 1.2 if the tax
shock is active; take-home = fixedPay + shockedVariable − (pf + shockedTax + pt). -/
def spec_shocked_take_home
    (fixedPay variablePay pf incomeTax pt : ℚ) (bonusActive taxActive : Bool) : ℚ :=
  (fixedPay + (if bonusActive then 0 else variablePay))
    - (pf + (if taxActive then incomeTax * (12/10) else incomeTax) + pt)

/-- The spec's shocked savings: shockedSavings = shockedTakeHome − totalExpenses. -/
def spec_shocked_savings
    (fixedPay variablePay pf incomeTax pt totalExp : ℚ) (bonusActive taxActive : Bool) : ℚ :=
  spec_shocked_take_home fixedPay variablePay pf incomeTax pt bonusActive taxActive - totalExp

/-- Spec §8 scenario input: income 50000, the six expense categories as listed,
no salary structure, no shocks. -/
def scenarioInput : Inputs :=
  { income := 50000, housing := 15000, food := 8000, transport := 3000,
    utilities := 2000, lifestyle := 5000, others := 2000,
    basic := 0, hra := 0, allowance := 0, variable_pay := 0,
    pf := 0, tax := 0, pt := 0, bonus_shock := false, tax_shock := false }

/-- The all-zero input: every amount 0, both shock flags off. -/
def zeroInput : Inputs :=
  { income := 0, housing := 0, food := 0, transport := 0, utilities := 0,
    lifestyle := 0, others := 0, basic := 0, hra := 0, allowance := 0,
    variable_pay := 0, pf := 0, tax := 0, pt := 0, bonus_shock := false, tax_shock := false }

/-- An overspending input: income 100, Others 1000 (expenses exceed income tenfold). -/
def overspendInput : Inputs :=
  { income := 100, housing := 0, food := 0, transport := 0, utilities := 0,
    lifestyle := 0, others := 1000, basic := 0, hra := 0, allowance := 0,
    variable_pay := 0, pf := 0, tax := 0, pt := 0, bonus_shock := false, tax_shock := false }

/-- Budget income 100 with an empty salary structure and no shocks: the budget
side saves 100 while the payroll side takes home 0. -/
def salaryOnlyInput : Inputs :=
  { income := 100, housing := 0, food := 0, transport := 0, utilities := 0,
    lifestyle := 0, others := 0, basic := 0, hra := 0, allowance := 0,
    variable_pay := 0, pf := 0, tax := 0, pt := 0, bonus_shock := false, tax_shock := false }

/-- Fixed pay 20000 with zero essential needs (spec §8's needs=0 test case). -/
def coveredInput : Inputs :=
  { income := 0, housing := 0, food := 0, transport := 0, utilities := 0,
    lifestyle := 0, others := 0, basic := 20000, hra := 0, allowance := 0,
    variable_pay := 0, pf := 0, tax := 0, pt := 0, bonus_shock := false, tax_shock := false }

/- Helper lemmas about the band tables. -/

theorem coverage_points_mem (c : ℚ) : 5 ≤ coverage_points c ∧ coverage_points c ≤ 40 := by
  unfold coverage_points
  split_ifs <;> norm_num

theorem var_ratio_points_mem (v : ℚ) : 5 ≤ var_ratio_points v ∧ var_ratio_points v ≤ 30 := by
  unfold var_ratio_points
  split_ifs <;> norm_num

theorem sav_ratio_points_mem (s : ℚ) : 5 ≤ sav_ratio_points s ∧ sav_ratio_points s ≤ 30 := by
  unfold sav_ratio_points
  split_ifs <;> norm_num

theorem alignment_bounds (fp vp n s g : ℚ) :
    15 ≤ calculate_ctc_budget_alignment_score fp vp n s g ∧
    calculate_ctc_budget_alignment_score fp vp n s g ≤ 100 := by
  unfold calculate_ctc_budget_alignment_score
  obtain ⟨h1, h1'⟩ := coverage_points_mem (alignment_coverage fp n)
  obtain ⟨h2, h2'⟩ := var_ratio_points_mem (if g ≠ 0 then vp / g else 1)
  obtain ⟨h3, h3'⟩ := sav_ratio_points_mem (if g ≠ 0 then s / g else 0)
  constructor
  · apply le_pyRound; push_cast; linarith
  · apply pyRound_le; push_cast; linarith

theorem stress_bounds (te sth ns ss : ℚ) :
    15 ≤ calculate_stress_test_score te sth ns ss ∧
    calculate_stress_test_score te sth ns ss ≤ 100 := by
  unfold calculate_stress_test_score
  constructor
  · apply le_pyRound; push_cast; split_ifs <;> norm_num
  · apply pyRound_le; push_cast; split_ifs <;> norm_num

theorem budget_bounds (sr er np wp : ℚ) (h : 0 ≤ sr) :
    0 ≤ calculate_financial_health_score sr er np wp ∧
    calculate_financial_health_score sr er np wp ≤ 100 := by
  unfold calculate_financial_health_score
  have hmin : (0:ℚ) ≤ min (sr / 20 * 40) 40 := le_min (by positivity) (by norm_num)
  have hmin' : min (sr / 20 * 40) 40 ≤ 40 := min_le_right _ _
  constructor
  · apply le_pyRound; push_cast; split_ifs <;> linarith
  · apply pyRound_le; push_cast; split_ifs <;> linarith

theorem grade_cases (s : ℚ) :
    get_resilience_grade s = "A" ∨ get_resilience_grade s = "B" ∨
    get_resilience_grade s = "C" ∨ get_resilience_grade s = "D" := by
  unfold get_resilience_grade
  split_ifs <;> simp

theorem grade_mono (s t : ℚ) (hst : s ≤ t) :
    gradeRank (get_resilience_grade s) ≤ gradeRank (get_resilience_grade t) := by
  unfold get_resilience_grade
  split_ifs <;> simp [gradeRank] <;> linarith

theorem recs_closed_form_aux (grade : String) (er sr vr fcr : ℚ)
    (h : grade = "A" ∨ grade = "B" ∨ grade = "C" ∨ grade = "D") :
    ∃ b, base_recommendations grade = some b ∧ b.length = 3 ∧
      get_policy_recommendations_by_grade grade er sr vr fcr =
        some ((((b ++ (if er > 85 then ["Expense-to-income ratio is critically high."] else []))
          ++ (if sr < 10 then ["Savings are very low. Target at least 10% initially."] else []))
          ++ (if vr > 7/20 then ["High dependence on variable pay increases risk."] else []))
          ++ (if fcr < 1 then ["Fixed income does not fully cover fixed needs."] else [])) := by
  rcases h with h | h | h | h <;> subst h <;>
    refine ⟨_, rfl, rfl, ?_⟩ <;>
    · unfold get_policy_recommendations_by_grade base_recommendations
      split_ifs <;> simp

theorem fixed_needs_warning_mem (grade : String) (er sr vr fcr : ℚ)
    (hg : grade = "A" ∨ grade = "B" ∨ grade = "C" ∨ grade = "D") (hf : fcr < 1) :
    ∃ l, get_policy_recommendations_by_grade grade er sr vr fcr = some l ∧
      "Fixed income does not fully cover fixed needs." ∈ l := by
  obtain ⟨b, _, _, hcf⟩ := recs_closed_form_aux grade er sr vr fcr hg
  refine ⟨_, hcf, ?_⟩
  simp [hf]

/-- Claim C1, counterexample: with all amounts non-negative (income 100, Others
expense 1000) the budget health score is -1775, far below 0 — the savings-rate
component min(savingsRate/20*40, 40) is unbounded below when savingsRate < 0. -/
theorem budget_score_negative_cex :
    Inputs.nonneg overspendInput ∧ budget_score overspendInput = -1775 ∧
    budget_score overspendInput < 0 := by
  have h : budget_score overspendInput = -1775 := by
    apply pyRound_eq_intCast
    norm_num [calculate_financial_health_score, savings_rate, savings, total_expenses,
      expense_ratio, needs_pct, needs, wants_pct, wants, overspendInput, min_def]
  exact ⟨by norm_num [Inputs.nonneg, overspendInput], h, by rw [h]; norm_num⟩

/-- Claim C1, amended: for every input the alignment and stress scores are
integers in [0,100], unconditionally; the budget health score lies in [0,100]
provided the savings rate is non-negative (totalExpenses ≤ income) — when
expenses exceed income the savings-rate component of the budget score drives
the total below 0. -/
theorem scores_bounded_amended (i : Inputs) :
    (0 ≤ alignment_score i ∧ alignment_score i ≤ 100) ∧
    (0 ≤ stress_score i ∧ stress_score i ≤ 100) ∧
    (0 ≤ savings_rate i → (0 ≤ budget_score i ∧ budget_score i ≤ 100)) := by
  obtain ⟨ha1, ha2⟩ := alignment_bounds (fixed_pay i) i.variable_pay (needs i) (savings i) (gross i)
  obtain ⟨hs1, hs2⟩ := stress_bounds (total_expenses i) (shocked_take_home i) (savings i) (shocked_savings i)
  refine ⟨⟨le_trans (by norm_num) ha1, ha2⟩, ⟨le_trans (by norm_num) hs1, hs2⟩, fun h => ?_⟩
  exact budget_bounds (savings_rate i) (expense_ratio i) (needs_pct i) (wants_pct i) h

/-- Witness for C1's amended theorem at the all-zero input, discharging the
savings-rate hypothesis of the budget-score part. -/
theorem scores_bounded_witness :
    (0 ≤ alignment_score zeroInput ∧ alignment_score zeroInput ≤ 100) ∧
    (0 ≤ stress_score zeroInput ∧ stress_score zeroInput ≤ 100) ∧
    0 ≤ savings_rate zeroInput ∧
    (0 ≤ budget_score zeroInput ∧ budget_score zeroInput ≤ 100) :=
  ⟨(scores_bounded_amended zeroInput).1,
   (scores_bounded_amended zeroInput).2.1,
   by norm_num [savings_rate, zeroInput],
   (scores_bounded_amended zeroInput).2.2 (by norm_num [savings_rate, zeroInput])⟩

/-- Claim C2: when needs = 0 the score-path coverage falls back to 1 (so the
alignment score awards the coverage ≥ 1 tier of 30 points), while the advisor
path's fixed_coverage_ratio falls back to 0, so the "Fixed income does not fully
cover fixed needs." warning fires — for every input with needs = 0. -/
theorem coverage_fallback_asymmetry (i : Inputs) (h : needs i = 0) :
    alignment_coverage (fixed_pay i) (needs i) = 1 ∧
    alignment_score i = pyRound (30
      + var_ratio_points (if gross i ≠ 0 then i.variable_pay / gross i else 1)
      + sav_ratio_points (if gross i ≠ 0 then savings i / gross i else 0)) ∧
    fixed_coverage_ratio i = 0 ∧
    ∃ l, recommendations i = some l ∧ "Fixed income does not fully cover fixed needs." ∈ l := by
  have h1 : alignment_coverage (fixed_pay i) (needs i) = 1 := by simp [alignment_coverage, h]
  have h2 : coverage_points (1:ℚ) = 30 := by norm_num [coverage_points]
  have h3 : fixed_coverage_ratio i = 0 := by simp [fixed_coverage_ratio, h]
  refine ⟨h1, ?_, h3, ?_⟩
  · unfold alignment_score calculate_ctc_budget_alignment_score
    rw [h1, h2]
  · have hg : resilience_grade i = "A" ∨ resilience_grade i = "B" ∨
        resilience_grade i = "C" ∨ resilience_grade i = "D" := by
      unfold resilience_grade
      exact grade_cases _
    have hf : fixed_coverage_ratio i < 1 := by rw [h3]; norm_num
    obtain ⟨l, hl, hm⟩ := fixed_needs_warning_mem (resilience_grade i) (expense_ratio i)
      (savings_rate i) (variable_ratio i) (fixed_coverage_ratio i) hg hf
    exact ⟨l, hl, hm⟩

/-- Witness for C2 at fixedPay = 20000, needs = 0. -/
theorem coverage_asymmetry_witness :
    needs coveredInput = 0 ∧ 0 < fixed_pay coveredInput ∧
    alignment_coverage (fixed_pay coveredInput) (needs coveredInput) = 1 ∧
    fixed_coverage_ratio coveredInput = 0 := by
  have happ := coverage_fallback_asymmetry coveredInput (by norm_num [needs, coveredInput])
  exact ⟨by norm_num [needs, coveredInput], by norm_num [fixed_pay, coveredInput],
    happ.1, happ.2.2.1⟩

/-- Claim C3, counterexample: with both shock flags false, shockedSavings is the
payroll take-home minus expenses, which differs from the normal savings figure
income − totalExpenses passed to the stress score: at budget income 100 with an
empty salary structure, savings = 100 but shockedSavings = 0. -/
theorem shocked_savings_ne_savings_cex :
    salaryOnlyInput.bonus_shock = false ∧ salaryOnlyInput.tax_shock = false ∧
    savings salaryOnlyInput = 100 ∧ shocked_savings salaryOnlyInput = 0 ∧
    shocked_savings salaryOnlyInput ≠ savings salaryOnlyInput := by
  refine ⟨rfl, rfl, ?_, ?_, ?_⟩ <;>
    norm_num [savings, shocked_savings, shocked_take_home, shocked_variable, shocked_tax,
      fixed_pay, total_expenses, salaryOnlyInput]

/-- Claim C3, amended: with both flags false the shock computation is the
identity on the salary figures — shockedTakeHome = gross − deductions (the
unshocked take-home), shockedSavings = takeHome − totalExpenses, and the stress
score equals the score on those unshocked figures; but shockedSavings need not
equal the normal savings (income − totalExpenses), since the budget income and
the salary structure are independent inputs. -/
theorem noshock_reproduces_unshocked (i : Inputs)
    (hb : i.bonus_shock = false) (ht : i.tax_shock = false) :
    shocked_take_home i = gross i - deductions i ∧
    shocked_savings i = (gross i - deductions i) - total_expenses i ∧
    stress_score i = calculate_stress_test_score (total_expenses i)
      (gross i - deductions i) (savings i) ((gross i - deductions i) - total_expenses i) := by
  have h1 : shocked_take_home i = gross i - deductions i := by
    simp [shocked_take_home, shocked_variable, shocked_tax, gross, deductions, fixed_pay,
      hb, ht]
  have h2 : shocked_savings i = (gross i - deductions i) - total_expenses i := by
    unfold shocked_savings
    rw [h1]
  refine ⟨h1, h2, ?_⟩
  unfold stress_score
  rw [h1, h2]

/-- Witness for C3's amended theorem. -/
theorem noshock_witness :
    salaryOnlyInput.bonus_shock = false ∧ salaryOnlyInput.tax_shock = false ∧
    shocked_take_home salaryOnlyInput = gross salaryOnlyInput - deductions salaryOnlyInput :=
  ⟨rfl, rfl, (noshock_reproduces_unshocked salaryOnlyInput rfl rfl).1⟩

/-- Claim C4, counterexample: on the all-zero input the stress score is 60 (the
take-home ≥ expenses tier fires at 0 ≥ 0) and the resilience grade is "C", not
the claimed "D"-at-minimum. -/
theorem zero_input_grade_cex :
    stress_score zeroInput = 60 ∧ resilience_grade zeroInput = "C" ∧
    resilience_grade zeroInput ≠ "D" := by
  have h : stress_score zeroInput = 60 := by
    apply pyRound_eq_intCast
    norm_num [calculate_stress_test_score, total_expenses, shocked_take_home, fixed_pay,
      shocked_variable, shocked_tax, savings, shocked_savings, zeroInput]
  have hg : resilience_grade zeroInput = "C" := by
    rw [resilience_grade, h]
    norm_num [get_resilience_grade]
  exact ⟨h, hg, by rw [hg]; decide⟩

/-- Claim C4, amended: the core is total — every input yields a complete result
(in particular the recommendation lookup always succeeds) — and the all-zero
input yields savingsRate = expenseRatio = needsPct = wantsPct = 0 with defined
scores (budget 50, alignment 40, stress 60) and resilience grade "C". -/
theorem zero_input_complete :
    (∀ i : Inputs, ∃ l, recommendations i = some l) ∧
    savings_rate zeroInput = 0 ∧ expense_ratio zeroInput = 0 ∧
    needs_pct zeroInput = 0 ∧ wants_pct zeroInput = 0 ∧
    budget_score zeroInput = 50 ∧ alignment_score zeroInput = 40 ∧
    stress_score zeroInput = 60 ∧ resilience_grade zeroInput = "C" := by
  have hstress : stress_score zeroInput = 60 := by
    apply pyRound_eq_intCast
    norm_num [calculate_stress_test_score, total_expenses, shocked_take_home, fixed_pay,
      shocked_variable, shocked_tax, savings, shocked_savings, zeroInput]
  refine ⟨?_, ?_, ?_, ?_, ?_, ?_, ?_, hstress, ?_⟩
  · intro i
    obtain ⟨b, _, _, hcf⟩ := recs_closed_form_aux (resilience_grade i) (expense_ratio i)
      (savings_rate i) (variable_ratio i) (fixed_coverage_ratio i)
      (by unfold resilience_grade; exact grade_cases _)
    exact ⟨_, hcf⟩
  · norm_num [savings_rate, zeroInput]
  · norm_num [expense_ratio, zeroInput]
  · norm_num [needs_pct, zeroInput]
  · norm_num [wants_pct, zeroInput]
  · apply pyRound_eq_intCast
    norm_num [calculate_financial_health_score, savings_rate, savings, total_expenses,
      expense_ratio, needs_pct, needs, wants_pct, wants, zeroInput, min_def]
  · apply pyRound_eq_intCast
    norm_num [calculate_ctc_budget_alignment_score, alignment_coverage, coverage_points,
      var_ratio_points, sav_ratio_points, fixed_pay, needs, savings, total_expenses,
      gross, zeroInput]
  · rw [resilience_grade, hstress]
    norm_num [get_resilience_grade]

/-- Claim C5: get_resilience_grade returns "A" on [80,∞), "B" on [65,80),
"C" on [50,65), "D" below 50; it is total on ℚ and monotonic non-decreasing,
with the spec's six sample values. -/
theorem grade_thresholds :
    (∀ s : ℚ, 80 ≤ s → get_resilience_grade s = "A") ∧
    (∀ s : ℚ, 65 ≤ s → s < 80 → get_resilience_grade s = "B") ∧
    (∀ s : ℚ, 50 ≤ s → s < 65 → get_resilience_grade s = "C") ∧
    (∀ s : ℚ, s < 50 → get_resilience_grade s = "D") ∧
    (∀ s t : ℚ, s ≤ t → gradeRank (get_resilience_grade s) ≤ gradeRank (get_resilience_grade t)) ∧
    get_resilience_grade 80 = "A" ∧ get_resilience_grade 79 = "B" ∧
    get_resilience_grade 65 = "B" ∧ get_resilience_grade 64 = "C" ∧
    get_resilience_grade 50 = "C" ∧ get_resilience_grade 49 = "D" := by
  refine ⟨?_, ?_, ?_, ?_, grade_mono, ?_, ?_, ?_, ?_, ?_, ?_⟩
  · intro s h
    unfold get_resilience_grade
    rw [if_pos h]
  · intro s h1 h2
    unfold get_resilience_grade
    rw [if_neg (not_le.mpr h2), if_pos h1]
  · intro s h1 h2
    unfold get_resilience_grade
    rw [if_neg (not_le.mpr (lt_of_lt_of_le h2 (by norm_num))), if_neg (not_le.mpr h2), if_pos h1]
  · intro s h
    unfold get_resilience_grade
    rw [if_neg (not_le.mpr (lt_of_lt_of_le h (by norm_num))),
      if_neg (not_le.mpr (lt_of_lt_of_le h (by norm_num))), if_neg (not_le.mpr h)]
  all_goals norm_num [get_resilience_grade]

/-- Witness for C5 at concrete scores. -/
theorem grade_thresholds_witness :
    get_resilience_grade 100 = "A" ∧ get_resilience_grade 70 = "B" ∧
    get_resilience_grade 55 = "C" ∧ get_resilience_grade 10 = "D" ∧
    gradeRank (get_resilience_grade 42) ≤ gradeRank (get_resilience_grade 90) :=
  ⟨grade_thresholds.1 100 (by norm_num),
   grade_thresholds.2.1 70 (by norm_num) (by norm_num),
   grade_thresholds.2.2.1 55 (by norm_num) (by norm_num),
   grade_thresholds.2.2.2.1 10 (by norm_num),
   grade_thresholds.2.2.2.2.1 42 90 (by norm_num)⟩

/-- Claim C6: the shock simulation implements the spec's detailed model —
shockedVariable = 0 iff the bonus shock is active else variablePay, shockedTax
scales by 1.2 iff the tax shock is active, shockedTakeHome =
(fixedPay + shockedVariable) − (pf + shockedTax + pt), and shockedSavings =
shockedTakeHome − totalExpenses. -/
theorem shock_model_refines_spec (i : Inputs) :
    shocked_variable i = (if i.bonus_shock then 0 else i.variable_pay) ∧
    shocked_tax i = (if i.tax_shock then i.tax * (12/10) else i.tax) ∧
    shocked_take_home i =
      spec_shocked_take_home (fixed_pay i) i.variable_pay i.pf i.tax i.pt
        i.bonus_shock i.tax_shock ∧
    shocked_savings i =
      spec_shocked_savings (fixed_pay i) i.variable_pay i.pf i.tax i.pt
        (total_expenses i) i.bonus_shock i.tax_shock :=
  ⟨rfl, rfl, rfl, rfl⟩

/-- Claim C7: for each grade A/B/C/D the recommendations are the fixed 3-string
base list for that grade followed, in fixed order, by the expenseRatio > 85,
savingsRate < 10, variableRatio > 0.35 and fixedCoverageRatio < 1 warnings when
their conditions hold — nothing else is added and nothing removed. -/
theorem recommendation_structure (grade : String) (er sr vr fcr : ℚ)
    (h : grade = "A" ∨ grade = "B" ∨ grade = "C" ∨ grade = "D") :
    ∃ b, base_recommendations grade = some b ∧ b.length = 3 ∧
      get_policy_recommendations_by_grade grade er sr vr fcr =
        some ((((b ++ (if er > 85 then ["Expense-to-income ratio is critically high."] else []))
          ++ (if sr < 10 then ["Savings are very low. Target at least 10% initially."] else []))
          ++ (if vr > 7/20 then ["High dependence on variable pay increases risk."] else []))
          ++ (if fcr < 1 then ["Fixed income does not fully cover fixed needs."] else [])) :=
  recs_closed_form_aux grade er sr vr fcr h

/-- Witness for C7 at grade "D" with all four warnings firing. -/
theorem recommendation_structure_witness :
    ∃ b, base_recommendations "D" = some b ∧ b.length = 3 ∧
      get_policy_recommendations_by_grade "D" 90 5 (1/2) 0 =
        some ((((b ++ (if (90:ℚ) > 85 then ["Expense-to-income ratio is critically high."] else []))
          ++ (if (5:ℚ) < 10 then ["Savings are very low. Target at least 10% initially."] else []))
          ++ (if (1/2:ℚ) > 7/20 then ["High dependence on variable pay increases risk."] else []))
          ++ (if (0:ℚ) < 1 then ["Fixed income does not fully cover fixed needs."] else [])) :=
  recommendation_structure "D" 90 5 (1/2) 0 (Or.inr (Or.inr (Or.inr rfl)))

/-- Claim C8: on the spec §8 scenario (income 50000, the six listed expenses)
the derived values are totalExpenses 35000, savings 15000, savingsRate 30,
expenseRatio 70, needsPct 50, wantsPct 10 and the budget health score is 90. -/
theorem scenario_values :
    total_expenses scenarioInput = 35000 ∧ savings scenarioInput = 15000 ∧
    savings_rate scenarioInput = 30 ∧ expense_ratio scenarioInput = 70 ∧
    needs_pct scenarioInput = 50 ∧ wants_pct scenarioInput = 10 ∧
    budget_score scenarioInput = 90 := by
  refine ⟨?_, ?_, ?_, ?_, ?_, ?_, ?_⟩
  · norm_num [total_expenses, scenarioInput]
  · norm_num [savings, total_expenses, scenarioInput]
  · norm_num [savings_rate, savings, total_expenses, scenarioInput]
  · norm_num [expense_ratio, total_expenses, scenarioInput]
  · norm_num [needs_pct, needs, scenarioInput]
  · norm_num [wants_pct, wants, scenarioInput]
  · apply pyRound_eq_intCast
    norm_num [calculate_financial_health_score, savings_rate, savings, total_expenses,
      expense_ratio, needs_pct, needs, wants_pct, wants, scenarioInput, min_def]

/-- Claim C9: every division in the core is guarded — at income = 0 the four
percentage ratios fall back to 0, at gross = 0 the variable ratio falls back to
1, and at needs = 0 the coverage falls back to 1 in the score path and 0 in the
advisor path; no division-by-zero error can occur. -/
theorem division_guards (i : Inputs) :
    (i.income = 0 → savings_rate i = 0 ∧ expense_ratio i = 0 ∧
      needs_pct i = 0 ∧ wants_pct i = 0) ∧
    (gross i = 0 → variable_ratio i = 1) ∧
    (needs i = 0 → alignment_coverage (fixed_pay i) (needs i) = 1 ∧
      fixed_coverage_ratio i = 0) := by
  refine ⟨fun h => ?_, fun h => ?_, fun h => ?_⟩
  · simp [savings_rate, expense_ratio, needs_pct, wants_pct, h]
  · simp [variable_ratio, h]
  · simp [alignment_coverage, fixed_coverage_ratio, h]

/-- Witness for C9 at the all-zero input. -/
theorem division_guards_witness :
    zeroInput.income = 0 ∧ savings_rate zeroInput = 0 ∧
    variable_ratio zeroInput = 1 ∧ fixed_coverage_ratio zeroInput = 0 := by
  have happ := division_guards zeroInput
  refine ⟨rfl, ((happ.1) rfl).1, (happ.2.1) ?_, ((happ.2.2) ?_).2⟩
  · norm_num [gross, fixed_pay, zeroInput]
  · norm_num [needs, zeroInput]

/-- Claim C10: the alignment score and the stress score are each at least 15 on
every input — every band of their cascades awards at least 5 except the
savings-sign band of the stress score, whose minimum is 0. -/
theorem score_floors (fp vp n s g te sth ns ss : ℚ) :
    15 ≤ calculate_ctc_budget_alignment_score fp vp n s g ∧
    15 ≤ calculate_stress_test_score te sth ns ss :=
  ⟨(alignment_bounds fp vp n s g).1, (stress_bounds te sth ns ss).1⟩

end BudgetApp
